import Mathlib

/-!
Shallow embedding of `plugins/sources/systemd/systemd.go` (wavefront-collector
for kubernetes, systemd metrics source) and verification of its specification.

Modelling conventions:
* Go `float64` metric values are modelled as exact rationals (`ℚ`).  Every
  value produced by this source is an integer count, a 0/1 indicator, or a
  microsecond quantity divided by 10^6; none of the verified claims depends on
  binary floating-point rounding.
* A Go `map[string]string` tag set is modelled as an association list built by
  `setTag`; all call sites insert distinct keys, so the list has unique keys.
* dbus lookups that return `(value, error)` are modelled as `Option`/`Except`
  results; the error text is kept only where the code propagates it.
* The concurrent fan-out of collector goroutines over a shared channel is
  modelled by a canonical sequential linearization (the program order in which
  the goroutines are spawned).  All verified claims are insensitive to the
  interleaving of points from different collectors.
* The process-wide dropped-point counter (`filteredPoints`) is threaded as
  explicit `Nat` state through `filterAppend`.
-/

set_option autoImplicit false

namespace systemd

/-- One entry of the unit snapshot.  The Go code wraps `dbus.UnitStatus` in a
local `unit` struct; only the `Name`, `LoadState` and `ActiveState` fields are
ever read, so the wrapper and the wrapped struct are collapsed into one record
here. -/
structure unit where
  Name : String
  LoadState : String
  ActiveState : String
deriving DecidableEq

/-- A dynamically-typed dbus property value (`dbus.Property.Value.Value()`),
restricted to the three Go types the source asserts it to
(`string`, `uint32`, `uint64`). -/
inductive PropValue where
  | str (s : String)
  | u32 (n : Nat)
  | u64 (n : Nat)
deriving DecidableEq

/-- Go `v.(string)`.  The Go type assertion panics on a mismatched type; the
claims only exercise well-typed responses, so a mismatch defaults. -/
def PropValue.asStr : PropValue → String
  | .str s => s
  | _ => ""

/-- Go `v.(uint32)` (see `PropValue.asStr` for the mismatch convention). -/
def PropValue.asU32 : PropValue → Nat
  | .u32 n => n
  | _ => 0

/-- Go `v.(uint64)` (see `PropValue.asStr` for the mismatch convention). -/
def PropValue.asU64 : PropValue → Nat
  | .u64 n => n
  | _ => 0

/-- The dbus connection, modelled extensionally by the responses of the three
query methods the source uses.  `listUnits` models `conn.ListUnits()`;
`getUnitTypeProperty name iface prop` models
`conn.GetUnitTypeProperty(name, iface, prop)`; `getUnitProperty` and
`getManagerProperty` likewise.  `none` (resp. `.error`) is a non-nil Go
error. -/
structure Conn where
  listUnits : Except String (List unit)
  getUnitTypeProperty : String → String → String → Option PropValue
  getUnitProperty : String → String → Option PropValue
  getManagerProperty : String → Option String

/-- Embeds `MetricPoint` from the internal metrics package (the fields this source
populates). -/
structure MetricPoint where
  Metric : String
  Value : ℚ
  Timestamp : Int
  Source : String
  Tags : List (String × String)
deriving DecidableEq

/-- Embeds `DataBatch` from the internal metrics package.  The Go batch timestamp is
a `time.Time`; both it and the per-point epoch-second stamp are modelled by
the same `now` integer. -/
structure DataBatch where
  Timestamp : Int
  MetricPoints : List MetricPoint
deriving DecidableEq

/-- Embeds `systemdMetricsSource`.  The metric-name and unit-name filters are the
opaque external predicates (`filter.Filter.Match` and `unitFilter.match`);
`none` is the Go nil.  The Go field `prefix` is named `pfx` here. -/
structure systemdMetricsSource where
  pfx : String
  source : String
  collectTaskMetrics : Bool
  collectStartTimeMetrics : Bool
  collectRestartMetrics : Bool
  unitsFilter : Option (String → Bool)
  filters : Option (String → List (String × String) → Bool)

/-- Embeds `var unitStatesName = []string{...}` (systemd.go:38). -/
def unitStatesName : List String :=
  ["active", "activating", "deactivating", "inactive", "failed"]

/-- Embeds `setTag` (systemd.go:377): insert a tag only when the value is
non-empty. -/
def setTag (tags : List (String × String)) (key val : String) :
    List (String × String) :=
  if val ≠ "" then tags ++ [(key, val)] else tags

/-- Embeds `setTags` (systemd.go:371). -/
def setTags (tags : List (String × String)) (name state service : String) :
    List (String × String) :=
  setTag (setTag (setTag tags "name" name) "state_name" state) "type" service

/-- Embeds `strings.Replace(name, "_", ".", -1)` as called by `metricPoint`:
with a one-character pattern, Go's `strings.Replace` with count `-1` replaces
every occurrence, which is a character-wise map. -/
def replaceUnderscores (s : String) : String :=
  String.mk (s.data.map (fun c => if c = '_' then '.' else c))

/-- Embeds `metricPoint` (systemd.go:383): prepend the configured name prefix after
replacing every underscore of the internal token by a dot. -/
def metricPoint (src : systemdMetricsSource) (name : String) (value : ℚ)
    (ts : Int) (tags : List (String × String)) : MetricPoint :=
  { Metric := src.pfx ++ replaceUnderscores name
    Value := value
    Timestamp := ts
    Source := src.source
    Tags := tags }

/-- The guard of `filterAppend` (systemd.go:352):
`src.filters == nil || src.filters.Match(point.Metric, point.Tags)`. -/
def passesFilters (src : systemdMetricsSource) (point : MetricPoint) : Bool :=
  match src.filters with
  | none => true
  | some f => f point.Metric point.Tags

/-- Embeds `filterAppend` (systemd.go:351).  The process-wide `filteredPoints`
counter is threaded explicitly as the first component of the state. -/
def filterAppend (src : systemdMetricsSource)
    (st : Nat × List MetricPoint) (point : MetricPoint) :
    Nat × List MetricPoint :=
  if passesFilters src point then (st.1, st.2 ++ [point])
  else (st.1 + 1, st.2)

/-- Embeds `filterUnits` (systemd.go:338): keep a unit iff
`(unitsFilter == nil || unitsFilter.match(name)) && LoadState == "loaded"`. -/
def filterUnits (src : systemdMetricsSource) (units : List unit) : List unit :=
  units.foldl
    (fun filtered u =>
      if (match src.unitsFilter with
          | none => true
          | some f => f u.Name) && (u.LoadState == "loaded")
      then filtered ++ [u] else filtered) []

/-- Read of a Go `map[string]float64` (missing key reads the zero value). -/
def goMapGet (m : List (String × ℚ)) (k : String) : ℚ :=
  match m.find? (fun kv => kv.1 == k) with
  | some kv => kv.2
  | none => 0

/-- Go `m[k] = v` on a `map[string]float64`. -/
def goMapSet (m : List (String × ℚ)) (k : String) (v : ℚ) :
    List (String × ℚ) :=
  if m.any (fun kv => kv.1 == k) then
    m.map (fun kv => if kv.1 == k then (kv.1, v) else kv)
  else m ++ [(k, v)]

/-- Go `m[k] += 1.0` on a `map[string]float64`. -/
def goMapInc (m : List (String × ℚ)) (k : String) : List (String × ℚ) :=
  if m.any (fun kv => kv.1 == k) then
    m.map (fun kv => if kv.1 == k then (kv.1, kv.2 + 1) else kv)
  else m ++ [(k, 1)]

/-- Embeds `summarizeUnits` (systemd.go:360): zero the five known buckets, then
count each unit into the bucket of its active state (unknown states create a
new bucket). -/
def summarizeUnits (units : List unit) : List (String × ℚ) :=
  let summarized := unitStatesName.foldl (fun m s => goMapSet m s 0) []
  units.foldl (fun m u => goMapInc m u.ActiveState) summarized

/-- Embeds `strings.HasSuffix` (the suffix checks of the collector loops),
as a computable suffix test on the character list. -/
def hasSuffix (s sfx : String) : Bool :=
  sfx.data.isSuffixOf s.data

/-- The service-type resolution at the top of the unit-status loop body
(systemd.go:158-173): a best-effort `Service`/`Mount` `Type` lookup whose
failure leaves the type string empty. -/
def serviceTypeOf (conn : Conn) (u : unit) : String :=
  if hasSuffix u.Name ".service" then
    match conn.getUnitTypeProperty u.Name "Service" "Type" with
    | some v => v.asStr
    | none => ""
  else if hasSuffix u.Name ".mount" then
    match conn.getUnitTypeProperty u.Name "Mount" "Type" with
    | some v => v.asStr
    | none => ""
  else ""

/-- The five `unit_state` points of one unit (systemd.go:174-182): one point
per known active-state name, value 1.0 on the state matching the unit's
current active state and 0.0 elsewhere. -/
def unitStatePoints (src : systemdMetricsSource) (now : Int) (u : unit)
    (serviceType : String) : List MetricPoint :=
  unitStatesName.map (fun stateName =>
    metricPoint src "unit_state" (if stateName == u.ActiveState then 1 else 0)
      now (setTags [] u.Name stateName serviceType))

/-- The optional `service_restart_total` point of one unit
(systemd.go:183-193): only for `.service` units with restart metrics enabled;
an `NRestarts` lookup failure is tolerated silently. -/
def unitRestartPoints (src : systemdMetricsSource) (conn : Conn) (now : Int)
    (u : unit) : List MetricPoint :=
  if src.collectRestartMetrics && hasSuffix u.Name ".service" then
    match conn.getUnitTypeProperty u.Name "Service" "NRestarts" with
    | none => []
    | some v =>
        [metricPoint src "service_restart_total" (v.asU32 : ℚ) now
          (setTag [] "name" u.Name)]
  else []

/-- Embeds `collectUnitStatusMetrics` (systemd.go:156): loop body split into
`unitStatePoints` and `unitRestartPoints`. -/
def collectUnitStatusMetrics (src : systemdMetricsSource) (conn : Conn)
    (units : List unit) (now : Int) : List MetricPoint :=
  units.flatMap (fun u =>
    unitStatePoints src now u (serviceTypeOf conn u)
      ++ unitRestartPoints src conn now u)

/-- The loop body of `collectSockets` (systemd.go:198-226).  A failed
`NAccepted` lookup `continue`s before anything is emitted; a failed
`NConnections` lookup `continue`s after the accepted point, which also skips
the `NRefused` lookup; a failed `NRefused` lookup skips only its own point.
The Go loop builds the `name` tag map once per unit; the identical value is
inlined at each use here. -/
def socketPointsForUnit (src : systemdMetricsSource) (conn : Conn) (now : Int)
    (u : unit) : List MetricPoint :=
  if !hasSuffix u.Name ".socket" then []
  else
    match conn.getUnitTypeProperty u.Name "Socket" "NAccepted" with
    | none => []
    | some acc =>
        metricPoint src "socket_accepted_connections_total" (acc.asU32 : ℚ)
            now (setTag [] "name" u.Name) ::
          match conn.getUnitTypeProperty u.Name "Socket" "NConnections" with
          | none => []
          | some cur =>
              metricPoint src "socket_current_connections" (cur.asU32 : ℚ)
                  now (setTag [] "name" u.Name) ::
                match conn.getUnitTypeProperty u.Name "Socket" "NRefused" with
                | none => []
                | some refused =>
                    [metricPoint src "socket_refused_connections_total"
                      (refused.asU32 : ℚ) now (setTag [] "name" u.Name)]

/-- Embeds `collectSockets` (systemd.go:197). -/
def collectSockets (src : systemdMetricsSource) (conn : Conn)
    (units : List unit) (now : Int) : List MetricPoint :=
  units.flatMap (socketPointsForUnit src conn now)

/-- The loop body of `collectUnitStartTimeMetrics` (systemd.go:231-245): a
non-active unit reports zero; an active unit reports `ActiveEnterTimestamp`
microseconds over 10^6, and a lookup failure skips the unit. -/
def startTimePointsForUnit (src : systemdMetricsSource) (conn : Conn)
    (now : Int) (u : unit) : List MetricPoint :=
  if u.ActiveState != "active" then
    [metricPoint src "unit_start_time_seconds" ((0 : ℚ) / 1000000) now
      (setTag [] "name" u.Name)]
  else
    match conn.getUnitProperty u.Name "ActiveEnterTimestamp" with
    | none => []
    | some t =>
        [metricPoint src "unit_start_time_seconds" ((t.asU64 : ℚ) / 1000000)
          now (setTag [] "name" u.Name)]

/-- Embeds `collectUnitStartTimeMetrics` (systemd.go:229). -/
def collectUnitStartTimeMetrics (src : systemdMetricsSource) (conn : Conn)
    (units : List unit) (now : Int) : List MetricPoint :=
  units.flatMap (startTimePointsForUnit src conn now)

/-- The loop body of `collectUnitTasksMetrics` (systemd.go:250-277): for
`.service` units, the `TasksCurrent` and `TasksMax` lookups run in sequence;
each failure only skips its own point, and a value equal to
`math.MaxUint64` suppresses that point. -/
def tasksPointsForUnit (src : systemdMetricsSource) (conn : Conn) (now : Int)
    (u : unit) : List MetricPoint :=
  if hasSuffix u.Name ".service" then
    (match conn.getUnitTypeProperty u.Name "Service" "TasksCurrent" with
     | none => []
     | some tasksCurrentCount =>
         if tasksCurrentCount.asU64 != 2 ^ 64 - 1 then
           [metricPoint src "unit_tasks_current"
             (tasksCurrentCount.asU64 : ℚ) now (setTag [] "name" u.Name)]
         else [])
    ++
    (match conn.getUnitTypeProperty u.Name "Service" "TasksMax" with
     | none => []
     | some tasksMaxCount =>
         if tasksMaxCount.asU64 != 2 ^ 64 - 1 then
           [metricPoint src "unit_tasks_max" (tasksMaxCount.asU64 : ℚ) now
             (setTag [] "name" u.Name)]
         else [])
  else []

/-- Embeds `collectUnitTasksMetrics` (systemd.go:248). -/
def collectUnitTasksMetrics (src : systemdMetricsSource) (conn : Conn)
    (units : List unit) (now : Int) : List MetricPoint :=
  units.flatMap (tasksPointsForUnit src conn now)

/-- The loop body of `collectTimers` (systemd.go:281-294). -/
def timerPointsForUnit (src : systemdMetricsSource) (conn : Conn) (now : Int)
    (u : unit) : List MetricPoint :=
  if !hasSuffix u.Name ".timer" then []
  else
    match conn.getUnitTypeProperty u.Name "Timer" "LastTriggerUSec" with
    | none => []
    | some lastTriggerValue =>
        [metricPoint src "timer_last_trigger_seconds"
          ((lastTriggerValue.asU64 : ℚ) / 1000000) now
          (setTag [] "name" u.Name)]

/-- Embeds `collectTimers` (systemd.go:280). -/
def collectTimers (src : systemdMetricsSource) (conn : Conn)
    (units : List unit) (now : Int) : List MetricPoint :=
  units.flatMap (timerPointsForUnit src conn now)

/-- Embeds `collectSummaryMetrics` (systemd.go:297): one `units` point per summary
bucket, tagged with the state name.  Go iterates the map in unspecified
order; the model iterates in insertion order. -/
def collectSummaryMetrics (src : systemdMetricsSource)
    (summary : List (String × ℚ)) (now : Int) : List MetricPoint :=
  summary.map (fun kv =>
    metricPoint src "units" kv.2 now (setTag [] "state_name" kv.1))

/-- Embeds `collectSystemState` (systemd.go:305): a failed `SystemState` manager
lookup returns an error and emits nothing; otherwise one `system_running`
point is emitted, 1.0 exactly when the state string is the quoted literal
`"running"`, with a nil tag map. -/
def collectSystemState (src : systemdMetricsSource) (conn : Conn)
    (now : Int) : Except String MetricPoint :=
  match conn.getManagerProperty "SystemState" with
  | none => .error "couldn't get system state"
  | some systemState =>
      .ok (metricPoint src "system_running"
        (if systemState == "\"running\"" then 1 else 0) now [])

/-- Embeds `getAllUnits` (systemd.go:322).  The Go function rewraps each
`dbus.UnitStatus` in the local `unit` struct one-for-one; with the two
records collapsed (see `unit`) it reduces to the `ListUnits` call. -/
def getAllUnits (conn : Conn) : Except String (List unit) :=
  conn.listUnits

/-- The stream of points sent over the `gather` channel during one scrape, in
the canonical linearization (spawn order of the producers; the system-state
point, produced synchronously by the orchestrator, last).  Which points occur
is interleaving-independent; only their order is canonicalized. -/
def gatherPoints (src : systemdMetricsSource) (conn : Conn)
    (allUnits : List unit) (now : Int) : List MetricPoint :=
  let units := filterUnits src allUnits
  collectSummaryMetrics src (summarizeUnits allUnits) now
    ++ collectUnitStatusMetrics src conn units now
    ++ (if src.collectStartTimeMetrics then
          collectUnitStartTimeMetrics src conn units now
        else [])
    ++ (if src.collectTaskMetrics then
          collectUnitTasksMetrics src conn units now
        else [])
    ++ collectTimers src conn units now
    ++ collectSockets src conn units now
    ++ (match collectSystemState src conn now with
        | .ok p => [p]
        | .error _ => [])

/-- Embeds `ScrapeMetrics` (systemd.go:59).  `connE` is the result of `dbus.New()`.
The gathering goroutine folds `filterAppend` over the channel stream; the
returned error is the `err` variable at the `return result, err` on line 153:
the connection error, the snapshot error, or the result of
`collectSystemState` (which is merely logged, not cleared, on line 138). -/
def ScrapeMetrics (src : systemdMetricsSource) (connE : Except String Conn)
    (now : Int) : Option DataBatch × Option String :=
  match connE with
  | .error e => (none, some ("couldn't get dbus connection: " ++ e))
  | .ok conn =>
      match getAllUnits conn with
      | .error e => (none, some ("couldn't get units: " ++ e))
      | .ok allUnits =>
          let pts :=
            ((gatherPoints src conn allUnits now).foldl
              (filterAppend src) (0, [])).2
          (some { Timestamp := now, MetricPoints := pts },
           match collectSystemState src conn now with
           | .ok _ => none
           | .error e => some e)

/-- Embeds `strconv.ParseBool`: the exact twelve accepted literals; anything else is
a parse error (on which Go's `ParseBool` also returns the zero value
`false`). -/
def parseBool (s : String) : Option Bool :=
  if s = "1" ∨ s = "t" ∨ s = "T" ∨ s = "true" ∨ s = "TRUE" ∨ s = "True" then
    some true
  else if s = "0" ∨ s = "f" ∨ s = "F" ∨ s = "false" ∨ s = "FALSE" ∨
      s = "False" then
    some false
  else none

/-- One boolean toggle of `NewProvider` (systemd.go:422-447): keep the
default if the query parameter is absent; otherwise take `ParseBool`'s first
result, which is `false` when the value does not parse (the error is only
logged). -/
def boolOption (dflt : Bool) (vs : List String) : Bool :=
  match vs with
  | [] => dflt
  | v :: _ => (parseBool v).getD false

/-- Embeds `NewProvider` (systemd.go:405), restricted to the construction of the
single `systemdMetricsSource` it wraps.  `vals` is `uri.Query()`;
`nodeName` is `util.GetNodeName()`; `hostname` is `os.Hostname()`;
`unitsFilter` and `filters` are the externally built predicates. -/
def NewProvider (vals : String → List String) (nodeName : String)
    (hostname : Except String String)
    (unitsFilter : Option (String → Bool))
    (filters : Option (String → List (String × String) → Bool)) :
    systemdMetricsSource :=
  { pfx :=
      match vals "prefix" with
      | [] => "kubernetes.systemd."
      | v :: _ => v
    source :=
      if nodeName != "" then nodeName
      else
        match hostname with
        | .ok h => h
        | .error _ => "wavefront-kubernetes-collector"
    collectTaskMetrics := boolOption true (vals "taskMetrics")
    collectStartTimeMetrics := boolOption true (vals "startTimeMetrics")
    collectRestartMetrics := boolOption false (vals "restartMetrics")
    unitsFilter := unitsFilter
    filters := filters }

/-! ### General helper lemmas -/

/-- A conditional-append left fold is a filter. -/
theorem foldl_filterAcc {α : Type} (p : α → Bool) (l : List α) :
    ∀ acc : List α,
      l.foldl (fun r u => if p u then r ++ [u] else r) acc = acc ++ l.filter p := by
  induction l with
  | nil => simp
  | cons u t ih =>
      intro acc
      by_cases h : p u <;> simp [h, ih, List.filter_cons]

/-- Matching and non-matching elements partition the length. -/
theorem countP_add_countP_not {α : Type} (p : α → Bool) (l : List α) :
    l.countP p + l.countP (fun a => !p a) = l.length := by
  induction l with
  | nil => simp
  | cons a t ih => by_cases h : p a <;> simp [List.countP_cons, h] <;> omega

/-- In a duplicate-free list every element occurs once or not at all. -/
theorem count_nodup_ite {α : Type} [DecidableEq α] (a : α) (l : List α)
    (h : l.Nodup) : l.count a = if a ∈ l then 1 else 0 := by
  by_cases hm : a ∈ l
  · simp [hm, List.count_eq_one_of_mem h hm]
  · simp [hm, List.count_eq_zero_of_not_mem hm]

/-- String concatenation is left-cancellative. -/
theorem string_append_left_cancel {p a b : String} (h : p ++ a = p ++ b) :
    a = b := by
  have h2 := congrArg String.data h
  simp only [String.data_append] at h2
  exact String.ext (List.append_cancel_left h2)

/-! ### Concrete fixtures used by witnesses and counterexamples -/

/-- A source with the default configuration and no filters. -/
def src0 : systemdMetricsSource :=
  { pfx := "kubernetes.systemd."
    source := "node0"
    collectTaskMetrics := true
    collectStartTimeMetrics := true
    collectRestartMetrics := false
    unitsFilter := none
    filters := none }

/-- A connection on which every lookup fails and the snapshot is empty. -/
def conn0 : Conn :=
  { listUnits := .ok []
    getUnitTypeProperty := fun _ _ _ => none
    getUnitProperty := fun _ _ => none
    getManagerProperty := fun _ => none }

/-- A loaded service unit in an active state outside the five known names
(systemd also reports states such as `reloading`). -/
def reloadingUnit : unit :=
  { Name := "a.service", LoadState := "loaded", ActiveState := "reloading" }

/-- A loaded, active socket unit. -/
def sockUnit : unit :=
  { Name := "a.socket", LoadState := "loaded", ActiveState := "active" }

/-- A connection whose `NAccepted` and `NRefused` lookups succeed while the
`NConnections` lookup fails. -/
def connSock : Conn :=
  { conn0 with
    getUnitTypeProperty := fun _ _ p =>
      if p = "NAccepted" then some (.u32 3)
      else if p = "NRefused" then some (.u32 7)
      else none }

/-- A loaded, active service unit. -/
def svcUnit : unit :=
  { Name := "a.service", LoadState := "loaded", ActiveState := "active" }

/-- A connection reporting the unlimited sentinel for `TasksCurrent` and a
finite `TasksMax`. -/
def connTasks : Conn :=
  { conn0 with
    getUnitTypeProperty := fun _ _ p =>
      if p = "TasksCurrent" then some (.u64 (2 ^ 64 - 1))
      else if p = "TasksMax" then some (.u64 5)
      else none }

/-- Query parameters carrying an unparseable value for all three boolean
toggles. -/
def vals0 : String → List String := fun k =>
  if k = "taskMetrics" ∨ k = "startTimeMetrics" ∨ k = "restartMetrics" then
    ["notabool"]
  else []

/-! ### C2: aggregation drop-filter -/

/-- C2: a point handed to the aggregation step is appended to the accumulated
sequence iff the metric filter is absent (nil) or matches the point's metric
name and tags; otherwise the sequence is unchanged and the process-wide
dropped-point counter increases by exactly one.  Folded over a whole channel
stream, the survivors are exactly the matching points in order and the
counter grows by exactly the number of dropped points. -/
theorem filterAppend_drop_policy (src : systemdMetricsSource) (ctr : Nat)
    (slice : List MetricPoint) (point : MetricPoint)
    (pts : List MetricPoint) :
    (filterAppend src (ctr, slice) point =
      if passesFilters src point then (ctr, slice ++ [point])
      else (ctr + 1, slice)) ∧
    (List.foldl (filterAppend src) (ctr, slice) pts =
      (ctr + pts.countP (fun p => !passesFilters src p),
       slice ++ pts.filter (passesFilters src))) ∧
    (passesFilters src point = true ↔
      src.filters = none ∨
        ∃ f, src.filters = some f ∧ f point.Metric point.Tags = true) := by
  refine ⟨rfl, ?_, ?_⟩
  · induction pts generalizing ctr slice with
    | nil => simp
    | cons p t ih =>
        by_cases h : passesFilters src p
        · simpa [filterAppend, h, List.countP_cons, List.filter_cons] using
            ih ctr (slice ++ [p])
        · have := ih (ctr + 1) slice
          simp [filterAppend, h, List.countP_cons, List.filter_cons, this]
          omega
  · cases hf : src.filters <;> simp [passesFilters, hf]

/-! ### C5: unit selection -/

/-- C5: the selector keeps a unit iff its load state equals `loaded` and the
name filter is absent or matches its name, and it preserves the relative
order of the input list (the output is the order-preserving filter of the
input). -/
theorem filterUnits_selection (src : systemdMetricsSource)
    (units : List unit) :
    (filterUnits src units = units.filter (fun u =>
      (u.LoadState == "loaded") &&
      (match src.unitsFilter with
       | none => true
       | some f => f u.Name))) ∧
    (filterUnits src units).Sublist units ∧
    (∀ u : unit, u ∈ filterUnits src units ↔
      u ∈ units ∧ u.LoadState = "loaded" ∧
        (src.unitsFilter = none ∨
          ∃ f, src.unitsFilter = some f ∧ f u.Name = true)) := by
  have key : filterUnits src units = units.filter (fun u =>
      (match src.unitsFilter with
       | none => true
       | some f => f u.Name) && (u.LoadState == "loaded")) := by
    have key := foldl_filterAcc
      (fun u : unit =>
        (match src.unitsFilter with
         | none => true
         | some f => f u.Name) && (u.LoadState == "loaded")) units []
    rw [List.nil_append] at key
    exact key
  have reorder : filterUnits src units = units.filter (fun u =>
      (u.LoadState == "loaded") &&
      (match src.unitsFilter with
       | none => true
       | some f => f u.Name)) := by
    rw [key]
    exact List.filter_congr (fun u _ => Bool.and_comm _ _)
  refine ⟨reorder, ?_, ?_⟩
  · rw [reorder]; exact List.filter_sublist _
  · intro u
    rw [reorder, List.mem_filter]
    cases hf : src.unitsFilter with
    | none => simp [hf, and_assoc]
    | some f => simp [hf, and_assoc]

/-! ### C3: unit-status indicator points -/

/-- C3 counterexample: for a selected unit whose active state (`reloading`)
is outside the five known names, the Unit Status collector still emits the
five points, but none of them has value 1.0 — the claim that exactly one of
the five points per unit is 1.0 fails. -/
theorem unit_state_single_hot_counterexample :
    (collectUnitStatusMetrics src0 conn0 [reloadingUnit] 0).length = 5 ∧
    (collectUnitStatusMetrics src0 conn0 [reloadingUnit] 0).countP
      (fun p => decide (p.Value = 1)) = 0 ∧
    ¬ (collectUnitStatusMetrics src0 conn0 [reloadingUnit] 0).countP
      (fun p => decide (p.Value = 1)) = 1 := by
  refine ⟨by decide, by decide, by decide⟩

/-- C3 (amended): for every selected unit the Unit Status collector emits
exactly one `unit_state` point per known active-state name (5 points per
unit), each with value 1.0 exactly when that state name equals the unit's
current active state; hence a unit whose active state is one of the five
known names has exactly one 1.0 point and four 0.0 points, while a unit with
an unknown active state has all five points 0.0. -/
theorem unit_state_points_amended (src : systemdMetricsSource) (conn : Conn)
    (units : List unit) (now : Int) (u : unit) (serviceType : String) :
    ((unitStatePoints src now u serviceType).length = 5) ∧
    (∀ p ∈ unitStatePoints src now u serviceType,
      ∃ s ∈ unitStatesName,
        p = metricPoint src "unit_state"
          (if s == u.ActiveState then 1 else 0) now
          (setTags [] u.Name s serviceType)) ∧
    ((unitStatePoints src now u serviceType).countP
        (fun p => decide (p.Value = 1)) =
      if u.ActiveState ∈ unitStatesName then 1 else 0) ∧
    ((unitStatePoints src now u serviceType).countP
        (fun p => decide (p.Value = 0)) =
      if u.ActiveState ∈ unitStatesName then 4 else 5) ∧
    (collectUnitStatusMetrics src conn units now =
      units.flatMap (fun v =>
        unitStatePoints src now v (serviceTypeOf conn v)
          ++ unitRestartPoints src conn now v)) := by
  have hnodup : unitStatesName.Nodup := by decide
  have hhot : (unitStatePoints src now u serviceType).countP
      (fun p => decide (p.Value = 1)) =
      unitStatesName.count u.ActiveState := by
    unfold unitStatePoints
    rw [List.countP_map]
    refine List.countP_congr (fun s _ => ?_)
    by_cases hs : s == u.ActiveState <;>
      simp [Function.comp, metricPoint, hs]
  have hcold : (unitStatePoints src now u serviceType).countP
      (fun p => decide (p.Value = 0)) =
      unitStatesName.countP (fun s => !(s == u.ActiveState)) := by
    unfold unitStatePoints
    rw [List.countP_map]
    refine List.countP_congr (fun s _ => ?_)
    by_cases hs : s == u.ActiveState <;>
      simp [Function.comp, metricPoint, hs]
  have hsum := countP_add_countP_not
    (fun s => s == u.ActiveState) unitStatesName
  have hcount := count_nodup_ite u.ActiveState unitStatesName hnodup
  have hcountP : unitStatesName.countP (fun s => s == u.ActiveState) =
      unitStatesName.count u.ActiveState := rfl
  refine ⟨by simp [unitStatePoints, unitStatesName], ?_, ?_, ?_, rfl⟩
  · intro p hp
    unfold unitStatePoints at hp
    obtain ⟨s, hs, rfl⟩ := List.mem_map.mp hp
    exact ⟨s, hs, rfl⟩
  · rw [hhot, hcount]
  · rw [hcold]
    have hlen : unitStatesName.length = 5 := by decide
    rw [hcountP, hcount] at hsum
    rw [hlen] at hsum
    by_cases hm : u.ActiveState ∈ unitStatesName <;> simp [hm] at hsum ⊢ <;>
      omega

/-- Closed instance of the amended C3 theorem at a concrete active unit:
the hot point of `svcUnit` is one of the five described points. -/
theorem unit_state_points_amended_witness :
    ∃ s ∈ unitStatesName,
      metricPoint src0 "unit_state" (1 : ℚ) 0
          (setTags [] "a.service" "active" "") =
        metricPoint src0 "unit_state"
          (if s == svcUnit.ActiveState then 1 else 0) 0
          (setTags [] svcUnit.Name s "") :=
  (unit_state_points_amended src0 conn0 [] 0 svcUnit "").2.1
    (metricPoint src0 "unit_state" (1 : ℚ) 0
      (setTags [] "a.service" "active" "")) (by decide)

/-! ### C6: task-count sentinel suppression and independence -/

/-- The Task Counts emission rule exactly as the spec states it for a single
lookup: emit the point unless the lookup failed or the looked-up value is the
unlimited sentinel (the maximum representable unsigned 64-bit integer). -/
def taskPointUnlessUnlimited (src : systemdMetricsSource) (now : Int)
    (u : unit) (token : String) : Option PropValue → List MetricPoint
  | none => []
  | some v =>
      if v.asU64 = 2 ^ 64 - 1 then []
      else [metricPoint src token (v.asU64 : ℚ) now (setTag [] "name" u.Name)]

/-- C6: for every service-suffixed unit the Task Counts collector never
emits a `unit_tasks_current` or `unit_tasks_max` point whose looked-up value
is `MaxUint64`, and the two lookups are independent: the collector output is
the concatenation of a part depending only on the `TasksCurrent` lookup and
a part depending only on the `TasksMax` lookup. -/
theorem unit_tasks_sentinel_suppression (src : systemdMetricsSource)
    (conn : Conn) (now : Int) (u : unit) (units : List unit) :
    (tasksPointsForUnit src conn now u =
      if hasSuffix u.Name ".service" then
        taskPointUnlessUnlimited src now u "unit_tasks_current"
            (conn.getUnitTypeProperty u.Name "Service" "TasksCurrent")
          ++ taskPointUnlessUnlimited src now u "unit_tasks_max"
            (conn.getUnitTypeProperty u.Name "Service" "TasksMax")
      else []) ∧
    (∀ v : PropValue,
      conn.getUnitTypeProperty u.Name "Service" "TasksCurrent" = some v →
      v.asU64 = 2 ^ 64 - 1 →
      metricPoint src "unit_tasks_current" (v.asU64 : ℚ) now
          (setTag [] "name" u.Name) ∉ tasksPointsForUnit src conn now u) ∧
    (∀ v : PropValue,
      conn.getUnitTypeProperty u.Name "Service" "TasksMax" = some v →
      v.asU64 = 2 ^ 64 - 1 →
      metricPoint src "unit_tasks_max" (v.asU64 : ℚ) now
          (setTag [] "name" u.Name) ∉ tasksPointsForUnit src conn now u) ∧
    (collectUnitTasksMetrics src conn units now =
      units.flatMap (tasksPointsForUnit src conn now)) := by
  have hchar : tasksPointsForUnit src conn now u =
      if hasSuffix u.Name ".service" then
        taskPointUnlessUnlimited src now u "unit_tasks_current"
            (conn.getUnitTypeProperty u.Name "Service" "TasksCurrent")
          ++ taskPointUnlessUnlimited src now u "unit_tasks_max"
            (conn.getUnitTypeProperty u.Name "Service" "TasksMax")
      else [] := by
    unfold tasksPointsForUnit
    by_cases hs : hasSuffix u.Name ".service"
    · rw [if_pos hs, if_pos hs]
      congr 1
      · cases hc : conn.getUnitTypeProperty u.Name "Service" "TasksCurrent" with
        | none => simp [taskPointUnlessUnlimited]
        | some v =>
            by_cases hv : v.asU64 = 2 ^ 64 - 1 <;>
              simp [taskPointUnlessUnlimited, hv, bne]
      · cases hc : conn.getUnitTypeProperty u.Name "Service" "TasksMax" with
        | none => simp [taskPointUnlessUnlimited]
        | some v =>
            by_cases hv : v.asU64 = 2 ^ 64 - 1 <;>
              simp [taskPointUnlessUnlimited, hv, bne]
    · rw [if_neg hs, if_neg hs]
  have hdistinct : ¬ (replaceUnderscores "unit_tasks_current" =
      replaceUnderscores "unit_tasks_max") := by decide
  refine ⟨hchar, ?_, ?_, rfl⟩
  · intro v hv hsent hmem
    rw [hchar] at hmem
    by_cases hs : hasSuffix u.Name ".service"
    · rw [if_pos hs, hv] at hmem
      have hred : taskPointUnlessUnlimited src now u "unit_tasks_current"
          (some v) = [] := by
        simp only [taskPointUnlessUnlimited]
        rw [if_pos hsent]
      rw [hred, List.nil_append] at hmem
      cases hm : conn.getUnitTypeProperty u.Name "Service" "TasksMax" with
      | none => simp [hm, taskPointUnlessUnlimited] at hmem
      | some w =>
          by_cases hw : w.asU64 = 2 ^ 64 - 1
          · simp [hm, taskPointUnlessUnlimited, hw] at hmem
          · have hred2 : taskPointUnlessUnlimited src now u "unit_tasks_max"
                (some w) = [metricPoint src "unit_tasks_max" (w.asU64 : ℚ)
                  now (setTag [] "name" u.Name)] := by
              simp only [taskPointUnlessUnlimited]
              rw [if_neg hw]
            rw [hm, hred2, List.mem_singleton] at hmem
            have := congrArg MetricPoint.Metric hmem
            simp only [metricPoint] at this
            exact hdistinct (string_append_left_cancel this)
    · rw [if_neg hs] at hmem; simp at hmem
  · intro v hv hsent hmem
    rw [hchar] at hmem
    by_cases hs : hasSuffix u.Name ".service"
    · rw [if_pos hs, hv] at hmem
      rw [List.mem_append] at hmem
      rcases hmem with hmem | hmem
      · cases hm : conn.getUnitTypeProperty u.Name "Service" "TasksCurrent" with
        | none => simp [hm, taskPointUnlessUnlimited] at hmem
        | some w =>
            by_cases hw : w.asU64 = 2 ^ 64 - 1
            · simp [hm, taskPointUnlessUnlimited, hw] at hmem
            · have hred2 : taskPointUnlessUnlimited src now u
                  "unit_tasks_current" (some w) =
                  [metricPoint src "unit_tasks_current" (w.asU64 : ℚ)
                    now (setTag [] "name" u.Name)] := by
                simp only [taskPointUnlessUnlimited]
                rw [if_neg hw]
              rw [hm, hred2, List.mem_singleton] at hmem
              have := congrArg MetricPoint.Metric hmem
              simp only [metricPoint] at this
              exact hdistinct (string_append_left_cancel this.symm)
      · have hred : taskPointUnlessUnlimited src now u "unit_tasks_max"
            (some v) = [] := by
          simp only [taskPointUnlessUnlimited]
          rw [if_pos hsent]
        rw [hred] at hmem
        simp at hmem
    · rw [if_neg hs] at hmem; simp at hmem

/-- Closed instance of the C6 theorem: with `TasksCurrent` reporting the
unlimited sentinel and `TasksMax` reporting 5, the current point is absent
(while the collector output is the max point alone). -/
theorem unit_tasks_sentinel_suppression_witness :
    metricPoint src0 "unit_tasks_current"
        ((PropValue.u64 (2 ^ 64 - 1)).asU64 : ℚ) 0
        (setTag [] "name" svcUnit.Name) ∉
      tasksPointsForUnit src0 connTasks 0 svcUnit :=
  (unit_tasks_sentinel_suppression src0 connTasks 0 svcUnit []).2.1
    (PropValue.u64 (2 ^ 64 - 1)) rfl rfl

/-! ### C7: socket lookup skip chain -/

/-- C7 counterexample: on a connection where the accepted-count lookup
succeeds, the current-count lookup fails and the refused-count lookup would
succeed, the Sockets collector emits only the accepted point — the
current-count failure also skips the refused point, so the refused lookup is
not independent of it. -/
theorem socket_refused_not_independent_counterexample :
    connSock.getUnitTypeProperty sockUnit.Name "Socket" "NRefused" =
      some (PropValue.u32 7) ∧
    collectSockets src0 connSock [sockUnit] 0 =
      [metricPoint src0 "socket_accepted_connections_total" (3 : ℚ) 0
        (setTag [] "name" "a.socket")] := by
  refine ⟨by decide, by decide⟩

/-- C7 (amended): in the Sockets collector, an accepted-count lookup failure
skips all three points of the unit; an accepted-count success followed by a
current-count failure emits only the accepted point (skipping the refused
lookup too, via the loop's `continue`); a refused-count failure skips only
the refused point; and with all three lookups succeeding all three points
are emitted. -/
theorem collectSockets_skip_chain (src : systemdMetricsSource) (conn : Conn)
    (now : Int) (u : unit) (units : List unit) :
    (¬ hasSuffix u.Name ".socket" = true →
      socketPointsForUnit src conn now u = []) ∧
    (conn.getUnitTypeProperty u.Name "Socket" "NAccepted" = none →
      socketPointsForUnit src conn now u = []) ∧
    (∀ a : PropValue, hasSuffix u.Name ".socket" = true →
      conn.getUnitTypeProperty u.Name "Socket" "NAccepted" = some a →
      conn.getUnitTypeProperty u.Name "Socket" "NConnections" = none →
      socketPointsForUnit src conn now u =
        [metricPoint src "socket_accepted_connections_total" (a.asU32 : ℚ)
          now (setTag [] "name" u.Name)]) ∧
    (∀ a c : PropValue, hasSuffix u.Name ".socket" = true →
      conn.getUnitTypeProperty u.Name "Socket" "NAccepted" = some a →
      conn.getUnitTypeProperty u.Name "Socket" "NConnections" = some c →
      conn.getUnitTypeProperty u.Name "Socket" "NRefused" = none →
      socketPointsForUnit src conn now u =
        [metricPoint src "socket_accepted_connections_total" (a.asU32 : ℚ)
          now (setTag [] "name" u.Name),
         metricPoint src "socket_current_connections" (c.asU32 : ℚ)
          now (setTag [] "name" u.Name)]) ∧
    (∀ a c r : PropValue, hasSuffix u.Name ".socket" = true →
      conn.getUnitTypeProperty u.Name "Socket" "NAccepted" = some a →
      conn.getUnitTypeProperty u.Name "Socket" "NConnections" = some c →
      conn.getUnitTypeProperty u.Name "Socket" "NRefused" = some r →
      socketPointsForUnit src conn now u =
        [metricPoint src "socket_accepted_connections_total" (a.asU32 : ℚ)
          now (setTag [] "name" u.Name),
         metricPoint src "socket_current_connections" (c.asU32 : ℚ)
          now (setTag [] "name" u.Name),
         metricPoint src "socket_refused_connections_total" (r.asU32 : ℚ)
          now (setTag [] "name" u.Name)]) ∧
    (collectSockets src conn units now =
      units.flatMap (socketPointsForUnit src conn now)) := by
  refine ⟨?_, ?_, ?_, ?_, ?_, rfl⟩
  · intro hs
    have hs' : hasSuffix u.Name ".socket" = false := by
      cases h : hasSuffix u.Name ".socket"
      · rfl
      · exact absurd h hs
    simp [socketPointsForUnit, hs']
  · intro ha
    unfold socketPointsForUnit
    by_cases hs : hasSuffix u.Name ".socket" <;> simp [hs, ha]
  · intro a hs ha hc
    simp [socketPointsForUnit, hs, ha, hc]
  · intro a c hs ha hc hr
    simp [socketPointsForUnit, hs, ha, hc, hr]
  · intro a c r hs ha hc hr
    simp [socketPointsForUnit, hs, ha, hc, hr]

/-- Closed instance of the amended C7 theorem on `connSock`: accepted-count
succeeds (3), current-count fails, so the unit contributes exactly the
accepted point. -/
theorem collectSockets_skip_chain_witness :
    socketPointsForUnit src0 connSock 0 sockUnit =
      [metricPoint src0 "socket_accepted_connections_total"
        ((PropValue.u32 3).asU32 : ℚ) 0 (setTag [] "name" sockUnit.Name)] :=
  (collectSockets_skip_chain src0 connSock 0 sockUnit []).2.2.1
    (PropValue.u32 3) (by decide) rfl rfl

/-! ### C4: summary buckets -/

/-- The initial bucket map built by the first loop of `summarizeUnits`. -/
def initSummary : List (String × ℚ) :=
  [("active", 0), ("activating", 0), ("deactivating", 0),
   ("inactive", 0), ("failed", 0)]

/-- A key is hit by `any` iff it is among the mapped-out keys. -/
theorem any_key_iff (m : List (String × ℚ)) (s : String) :
    m.any (fun kv => kv.1 == s) = true ↔ s ∈ m.map Prod.fst := by
  rw [List.any_eq_true]
  constructor
  · rintro ⟨kv, hkv, he⟩
    exact List.mem_map.mpr ⟨kv, hkv, by simpa using he⟩
  · intro h
    obtain ⟨kv, hkv, rfl⟩ := List.mem_map.mp h
    exact ⟨kv, hkv, by simp⟩

/-- Incrementing a bucket preserves the key list, or appends the new key. -/
theorem goMapInc_fst (m : List (String × ℚ)) (k : String) :
    (goMapInc m k).map Prod.fst =
      if m.any (fun kv => kv.1 == k) then m.map Prod.fst
      else m.map Prod.fst ++ [k] := by
  unfold goMapInc
  by_cases h : m.any (fun kv => kv.1 == k) <;> simp [h]
  intro a b _
  by_cases hak : a = k <;> simp [hak]

/-- Updating the hit entries adds one per entry whose key matches. -/
theorem mapUpd_sum (m : List (String × ℚ)) (k : String) :
    ((m.map (fun kv => if kv.1 == k then (kv.1, kv.2 + 1) else kv)).map
      Prod.snd).sum =
      (m.map Prod.snd).sum + (m.countP (fun kv => kv.1 == k) : ℚ) := by
  induction m with
  | nil => simp
  | cons kv t ih =>
      simp only [List.map_cons, List.sum_cons, List.countP_cons, ih]
      by_cases hk : kv.1 == k
      · rw [if_pos hk]
        simp only [hk, if_true]
        push_cast
        ring
      · rw [if_neg hk]
        simp only [hk, if_false]
        push_cast
        ring

/-- With duplicate-free keys, a present key matches exactly one entry. -/
theorem countP_key_eq_one (m : List (String × ℚ)) (k : String)
    (hnd : (m.map Prod.fst).Nodup)
    (h : m.any (fun kv => kv.1 == k) = true) :
    m.countP (fun kv => kv.1 == k) = 1 := by
  have h1 : m.countP (fun kv => kv.1 == k) =
      (m.map Prod.fst).countP (fun s => s == k) := by
    rw [List.countP_map]; rfl
  have h2 : k ∈ m.map Prod.fst := (any_key_iff m k).mp h
  have h3 : (m.map Prod.fst).count k = 1 :=
    (count_nodup_ite k (m.map Prod.fst) hnd).trans (if_pos h2)
  rw [h1]
  exact h3

/-- Incrementing a bucket raises the value total by exactly one when keys
are duplicate-free. -/
theorem goMapInc_sum (m : List (String × ℚ)) (k : String)
    (hnd : (m.map Prod.fst).Nodup) :
    ((goMapInc m k).map Prod.snd).sum = (m.map Prod.snd).sum + 1 := by
  unfold goMapInc
  by_cases h : m.any (fun kv => kv.1 == k)
  · rw [if_pos h, mapUpd_sum, countP_key_eq_one m k hnd h]
    norm_num
  · rw [if_neg h]
    simp

/-- Incrementing a bucket keeps the key list duplicate-free. -/
theorem goMapInc_nodup (m : List (String × ℚ)) (k : String)
    (hnd : (m.map Prod.fst).Nodup) :
    ((goMapInc m k).map Prod.fst).Nodup := by
  rw [goMapInc_fst]
  by_cases h : m.any (fun kv => kv.1 == k)
  · rwa [if_pos h]
  · rw [if_neg h]
    have hk : k ∉ m.map Prod.fst := fun hm => h ((any_key_iff m k).mpr hm)
    simp [List.nodup_append, hnd, hk]

/-- Incrementing a bucket keeps all values nonnegative. -/
theorem goMapInc_nonneg (m : List (String × ℚ)) (k : String)
    (h : ∀ kv ∈ m, 0 ≤ kv.2) :
    ∀ kv ∈ goMapInc m k, 0 ≤ kv.2 := by
  intro kv hkv
  unfold goMapInc at hkv
  by_cases hc : m.any (fun kv => kv.1 == k)
  · rw [if_pos hc] at hkv
    obtain ⟨kv', hkv', he⟩ := List.mem_map.mp hkv
    by_cases h' : kv'.1 == k
    · rw [if_pos h'] at he
      subst he
      have := h kv' hkv'
      simp only []
      linarith
    · rw [if_neg h'] at he
      subst he
      exact h kv' hkv'
  · rw [if_neg hc] at hkv
    rcases List.mem_append.mp hkv with h' | h'
    · exact h kv h'
    · simp only [List.mem_singleton] at h'
      subst h'
      norm_num

/-- The incremented key is present afterwards. -/
theorem goMapInc_key_mem (m : List (String × ℚ)) (k : String) :
    k ∈ (goMapInc m k).map Prod.fst := by
  rw [goMapInc_fst]
  by_cases h : m.any (fun kv => kv.1 == k)
  · rw [if_pos h]
    exact (any_key_iff m k).mp h
  · rw [if_neg h]
    simp

/-- Present keys remain present after an increment. -/
theorem goMapInc_key_mono (m : List (String × ℚ)) (k s : String)
    (h : s ∈ m.map Prod.fst) : s ∈ (goMapInc m k).map Prod.fst := by
  rw [goMapInc_fst]
  by_cases hc : m.any (fun kv => kv.1 == k)
  · rwa [if_pos hc]
  · rw [if_neg hc]
    exact List.mem_append_left _ h

/-- The per-unit counting step of `summarizeUnits` (eta-expanded loop
body). -/
def countStep (m : List (String × ℚ)) (u : unit) : List (String × ℚ) :=
  goMapInc m u.ActiveState

/-- Invariants of the per-unit counting fold of `summarizeUnits`. -/
theorem summarize_fold_inv (us : List unit) :
    ∀ m : List (String × ℚ), (m.map Prod.fst).Nodup →
      ((us.foldl countStep m).map Prod.fst).Nodup ∧
      ((us.foldl countStep m).map Prod.snd).sum =
        (m.map Prod.snd).sum + (us.length : ℚ) ∧
      (∀ s, s ∈ m.map Prod.fst → s ∈ (us.foldl countStep m).map Prod.fst) ∧
      (∀ u ∈ us, u.ActiveState ∈ (us.foldl countStep m).map Prod.fst) ∧
      ((∀ kv ∈ m, 0 ≤ kv.2) → ∀ kv ∈ us.foldl countStep m, 0 ≤ kv.2) := by
  induction us with
  | nil => intro m hnd; simp [hnd]
  | cons u t ih =>
      intro m hnd
      have hnd' := goMapInc_nodup m u.ActiveState hnd
      obtain ⟨ih1, ih2, ih3, ih4, ih5⟩ := ih (goMapInc m u.ActiveState) hnd'
      rw [List.foldl_cons]
      simp only [countStep]
      refine ⟨ih1, ?_, ?_, ?_, ?_⟩
      · rw [ih2, goMapInc_sum m u.ActiveState hnd, List.length_cons]
        push_cast
        ring
      · intro s hs
        exact ih3 s (goMapInc_key_mono m u.ActiveState s hs)
      · intro v hv
        rcases List.mem_cons.mp hv with rfl | hv
        · exact ih3 v.ActiveState (goMapInc_key_mem m v.ActiveState)
        · exact ih4 v hv
      · intro hpos
        exact ih5 (goMapInc_nonneg m u.ActiveState hpos)

/-- C4: the Summarizer's bucket map contains all five known active-state
names with nonnegative counts, contains a bucket for every unit's (possibly
unknown) active state, and its counts total the number of units in the
snapshot. -/
theorem summarizeUnits_buckets (units : List unit) :
    (unitStatesName.all (fun s =>
      (summarizeUnits units).any (fun kv => kv.1 == s)) = true) ∧
    ((summarizeUnits units).all (fun kv => decide (0 ≤ kv.2)) = true) ∧
    (units.all (fun u =>
      (summarizeUnits units).any (fun kv => kv.1 == u.ActiveState)) =
      true) ∧
    ((summarizeUnits units).map Prod.snd).sum = (units.length : ℚ) := by
  have hsu : summarizeUnits units = units.foldl countStep initSummary := rfl
  have hnd0 : (initSummary.map Prod.fst).Nodup := by decide
  obtain ⟨h1, h2, h3, h4, h5⟩ := summarize_fold_inv units initSummary hnd0
  refine ⟨?_, ?_, ?_, ?_⟩
  · rw [List.all_eq_true]
    intro s hs
    rw [hsu, any_key_iff]
    refine h3 s ?_
    have : initSummary.map Prod.fst = unitStatesName := by decide
    rw [this]
    exact hs
  · rw [List.all_eq_true]
    intro kv hkv
    rw [hsu] at hkv
    have := h5 (by decide) kv hkv
    simpa using this
  · rw [List.all_eq_true]
    intro u hu
    rw [hsu, any_key_iff]
    exact h4 u hu
  · rw [hsu, h2]
    have hzero : (initSummary.map Prod.snd).sum = 0 := by
      simp [initSummary]
    rw [hzero]
    ring

/-! ### C8: metric naming convention -/

/-- The internal category tokens this source passes to `metricPoint`. -/
def internalMetricTokens : List String :=
  ["units", "unit_state", "service_restart_total", "unit_start_time_seconds",
   "unit_tasks_current", "unit_tasks_max", "timer_last_trigger_seconds",
   "socket_accepted_connections_total", "socket_current_connections",
   "socket_refused_connections_total", "system_running"]

/-- The naming convention of the spec: an internal token with every
underscore replaced by a dot, prepended by the configured prefix. -/
def tokenShaped (src : systemdMetricsSource) (p : MetricPoint) : Prop :=
  ∃ t ∈ internalMetricTokens, p.Metric = src.pfx ++ replaceUnderscores t

/-- Every `metricPoint` on a listed token is token-shaped. -/
theorem tokenShaped_mk (src : systemdMetricsSource) (t : String)
    (ht : t ∈ internalMetricTokens) (v : ℚ) (ts : Int)
    (tags : List (String × String)) :
    tokenShaped src (metricPoint src t v ts tags) :=
  ⟨t, ht, rfl⟩

/-- Summary points are token-shaped. -/
theorem shape_summary (src : systemdMetricsSource)
    (summary : List (String × ℚ)) (now : Int) :
    ∀ p ∈ collectSummaryMetrics src summary now, tokenShaped src p := by
  intro p hp
  unfold collectSummaryMetrics at hp
  obtain ⟨kv, _, rfl⟩ := List.mem_map.mp hp
  exact tokenShaped_mk src "units" (by decide) _ _ _

/-- Unit-status points are token-shaped. -/
theorem shape_unitStatus (src : systemdMetricsSource) (conn : Conn)
    (units : List unit) (now : Int) :
    ∀ p ∈ collectUnitStatusMetrics src conn units now, tokenShaped src p := by
  intro p hp
  unfold collectUnitStatusMetrics at hp
  obtain ⟨u, _, hp⟩ := List.mem_flatMap.mp hp
  rcases List.mem_append.mp hp with h | h
  · unfold unitStatePoints at h
    obtain ⟨s, _, rfl⟩ := List.mem_map.mp h
    exact tokenShaped_mk src "unit_state" (by decide) _ _ _
  · unfold unitRestartPoints at h
    by_cases hc : src.collectRestartMetrics && hasSuffix u.Name ".service"
    · rw [if_pos hc] at h
      cases hm : conn.getUnitTypeProperty u.Name "Service" "NRestarts" with
      | none => rw [hm] at h; simp at h
      | some v =>
          rw [hm, List.mem_singleton] at h
          subst h
          exact tokenShaped_mk src "service_restart_total" (by decide) _ _ _
    · rw [if_neg hc] at h
      simp at h

/-- Start-time points are token-shaped. -/
theorem shape_startTime (src : systemdMetricsSource) (conn : Conn)
    (units : List unit) (now : Int) :
    ∀ p ∈ collectUnitStartTimeMetrics src conn units now,
      tokenShaped src p := by
  intro p hp
  unfold collectUnitStartTimeMetrics at hp
  obtain ⟨u, _, hp⟩ := List.mem_flatMap.mp hp
  unfold startTimePointsForUnit at hp
  by_cases ha : u.ActiveState != "active"
  · rw [if_pos ha, List.mem_singleton] at hp
    subst hp
    exact tokenShaped_mk src "unit_start_time_seconds" (by decide) _ _ _
  · rw [if_neg ha] at hp
    cases hm : conn.getUnitProperty u.Name "ActiveEnterTimestamp" with
    | none => rw [hm] at hp; simp at hp
    | some t =>
        rw [hm, List.mem_singleton] at hp
        subst hp
        exact tokenShaped_mk src "unit_start_time_seconds" (by decide) _ _ _

/-- Task-count points are token-shaped. -/
theorem shape_tasks (src : systemdMetricsSource) (conn : Conn)
    (units : List unit) (now : Int) :
    ∀ p ∈ collectUnitTasksMetrics src conn units now, tokenShaped src p := by
  intro p hp
  unfold collectUnitTasksMetrics at hp
  obtain ⟨u, _, hp⟩ := List.mem_flatMap.mp hp
  unfold tasksPointsForUnit at hp
  by_cases hs : hasSuffix u.Name ".service"
  · rw [if_pos hs] at hp
    rcases List.mem_append.mp hp with h | h
    · cases hm : conn.getUnitTypeProperty u.Name "Service" "TasksCurrent" with
      | none => rw [hm] at h; simp at h
      | some v =>
          simp only [hm] at h
          by_cases hv : v.asU64 != 2 ^ 64 - 1
          · rw [if_pos hv, List.mem_singleton] at h
            subst h
            exact tokenShaped_mk src "unit_tasks_current" (by decide) _ _ _
          · rw [if_neg hv] at h
            simp at h
    · cases hm : conn.getUnitTypeProperty u.Name "Service" "TasksMax" with
      | none => rw [hm] at h; simp at h
      | some v =>
          simp only [hm] at h
          by_cases hv : v.asU64 != 2 ^ 64 - 1
          · rw [if_pos hv, List.mem_singleton] at h
            subst h
            exact tokenShaped_mk src "unit_tasks_max" (by decide) _ _ _
          · rw [if_neg hv] at h
            simp at h
  · rw [if_neg hs] at hp
    simp at hp

/-- Timer points are token-shaped. -/
theorem shape_timers (src : systemdMetricsSource) (conn : Conn)
    (units : List unit) (now : Int) :
    ∀ p ∈ collectTimers src conn units now, tokenShaped src p := by
  intro p hp
  unfold collectTimers at hp
  obtain ⟨u, _, hp⟩ := List.mem_flatMap.mp hp
  unfold timerPointsForUnit at hp
  by_cases hs : hasSuffix u.Name ".timer"
  · rw [if_neg (by simp [hs])] at hp
    cases hm : conn.getUnitTypeProperty u.Name "Timer" "LastTriggerUSec" with
    | none => rw [hm] at hp; simp at hp
    | some v =>
        rw [hm, List.mem_singleton] at hp
        subst hp
        exact tokenShaped_mk src "timer_last_trigger_seconds" (by decide) _ _ _
  · rw [if_pos (by simp [hs])] at hp
    simp at hp

/-- Socket points are token-shaped. -/
theorem shape_sockets (src : systemdMetricsSource) (conn : Conn)
    (units : List unit) (now : Int) :
    ∀ p ∈ collectSockets src conn units now, tokenShaped src p := by
  intro p hp
  unfold collectSockets at hp
  obtain ⟨u, _, hp⟩ := List.mem_flatMap.mp hp
  unfold socketPointsForUnit at hp
  by_cases hs : hasSuffix u.Name ".socket"
  · rw [if_neg (by simp [hs])] at hp
    cases ha : conn.getUnitTypeProperty u.Name "Socket" "NAccepted" with
    | none => rw [ha] at hp; simp at hp
    | some a =>
        rw [ha] at hp
        rcases List.mem_cons.mp hp with rfl | hp
        · exact tokenShaped_mk src "socket_accepted_connections_total"
            (by decide) _ _ _
        · cases hc : conn.getUnitTypeProperty u.Name "Socket"
              "NConnections" with
          | none => rw [hc] at hp; simp at hp
          | some c =>
              rw [hc] at hp
              rcases List.mem_cons.mp hp with rfl | hp
              · exact tokenShaped_mk src "socket_current_connections"
                  (by decide) _ _ _
              · cases hr : conn.getUnitTypeProperty u.Name "Socket"
                    "NRefused" with
                | none => rw [hr] at hp; simp at hp
                | some r =>
                    rw [hr, List.mem_singleton] at hp
                    subst hp
                    exact tokenShaped_mk src
                      "socket_refused_connections_total" (by decide) _ _ _
  · rw [if_pos (by simp [hs])] at hp
    simp at hp

/-- C8: every point sent over the channel during a scrape has its metric
name equal to the configured prefix concatenated with the point's internal
category token in which every underscore has been replaced by a dot; with
the default prefix, the token `unit_state` yields
`kubernetes.systemd.unit.state`. -/
theorem metric_naming_convention (src : systemdMetricsSource) (conn : Conn)
    (allUnits : List unit) (now : Int) :
    (∀ p ∈ gatherPoints src conn allUnits now, tokenShaped src p) ∧
    (metricPoint src0 "unit_state" 1 0 []).Metric =
      "kubernetes.systemd.unit.state" := by
  constructor
  · intro p hp
    have hg : gatherPoints src conn allUnits now =
        collectSummaryMetrics src (summarizeUnits allUnits) now
          ++ collectUnitStatusMetrics src conn (filterUnits src allUnits) now
          ++ (if src.collectStartTimeMetrics then
                collectUnitStartTimeMetrics src conn
                  (filterUnits src allUnits) now
              else [])
          ++ (if src.collectTaskMetrics then
                collectUnitTasksMetrics src conn
                  (filterUnits src allUnits) now
              else [])
          ++ collectTimers src conn (filterUnits src allUnits) now
          ++ collectSockets src conn (filterUnits src allUnits) now
          ++ (match collectSystemState src conn now with
              | .ok q => [q]
              | .error _ => []) := rfl
    rw [hg] at hp
    simp only [List.mem_append] at hp
    rcases hp with ((((((h | h) | h) | h) | h) | h) | h)
    · exact shape_summary src _ now p h
    · exact shape_unitStatus src conn _ now p h
    · by_cases hb : src.collectStartTimeMetrics
      · rw [if_pos hb] at h
        exact shape_startTime src conn _ now p h
      · rw [if_neg hb] at h
        simp at h
    · by_cases hb : src.collectTaskMetrics
      · rw [if_pos hb] at h
        exact shape_tasks src conn _ now p h
      · rw [if_neg hb] at h
        simp at h
    · exact shape_timers src conn _ now p h
    · exact shape_sockets src conn _ now p h
    · cases hsys : collectSystemState src conn now with
      | ok q =>
          rw [hsys, List.mem_singleton] at h
          subst h
          unfold collectSystemState at hsys
          cases hm : conn.getManagerProperty "SystemState" with
          | none => rw [hm] at hsys; exact absurd hsys (by simp)
          | some s =>
              rw [hm] at hsys
              injection hsys with hq
              subst hq
              exact tokenShaped_mk src "system_running" (by decide) _ _ _
      | error e =>
          rw [hsys] at h
          simp at h
  · decide

/-- Closed instance of the C8 theorem at a concrete emitted point: an empty
snapshot still emits the five summary points, and the first of them carries
a token-shaped metric name. -/
theorem metric_naming_convention_witness :
    tokenShaped src0
      (metricPoint src0 "units" 0 0 (setTag [] "state_name" "active")) :=
  (metric_naming_convention src0 conn0 [] 0).1
    (metricPoint src0 "units" 0 0 (setTag [] "state_name" "active"))
    (by decide)

/-! ### C1: scrape error-propagation policy -/

/-- The channel stream of one scrape without the system-state collector's
contribution: everything the other collectors emit. -/
def nonSystemPoints (src : systemdMetricsSource) (conn : Conn)
    (allUnits : List unit) (now : Int) : List MetricPoint :=
  collectSummaryMetrics src (summarizeUnits allUnits) now
    ++ collectUnitStatusMetrics src conn (filterUnits src allUnits) now
    ++ (if src.collectStartTimeMetrics then
          collectUnitStartTimeMetrics src conn (filterUnits src allUnits) now
        else [])
    ++ (if src.collectTaskMetrics then
          collectUnitTasksMetrics src conn (filterUnits src allUnits) now
        else [])
    ++ collectTimers src conn (filterUnits src allUnits) now
    ++ collectSockets src conn (filterUnits src allUnits) now

/-- C1 counterexample: on a connection whose snapshot fetch succeeds but
whose system-state lookup fails, `ScrapeMetrics` returns a batch AND a
non-nil error (`return result, err` at systemd.go:153 returns the
system-state error assigned at line 138), contradicting the claim that every
non-fatal lookup failure yields a nil error. -/
theorem scrape_sysstate_error_counterexample :
    (ScrapeMetrics src0 (.ok conn0) 0).1.isSome = true ∧
    (ScrapeMetrics src0 (.ok conn0) 0).2 =
      some "couldn't get system state" :=
  ⟨rfl, rfl⟩

/-- C1 (amended): a connection-open or snapshot-fetch failure yields a nil
batch and a non-nil error; with the snapshot fetched, Scrape always returns
the batch of gathered-and-filtered points, per-unit lookup failures only
remove their own points (each collector skips exactly the failed lookups;
see the collector theorems), and the returned error is nil iff the
system-state lookup succeeded — a system-state failure yields the batch,
missing only the system-running point, together with a NON-nil error. -/
theorem scrape_error_policy_amended (src : systemdMetricsSource)
    (conn : Conn) (now : Int) :
    (∀ e, ScrapeMetrics src (.error e) now =
      (none, some ("couldn't get dbus connection: " ++ e))) ∧
    (∀ e, conn.listUnits = .error e →
      ScrapeMetrics src (.ok conn) now =
        (none, some ("couldn't get units: " ++ e))) ∧
    (∀ allUnits, conn.listUnits = .ok allUnits →
      (ScrapeMetrics src (.ok conn) now).1 =
        some { Timestamp := now
               MetricPoints :=
                 ((gatherPoints src conn allUnits now).foldl
                   (filterAppend src) (0, [])).2 } ∧
      ((ScrapeMetrics src (.ok conn) now).2 = none ↔
        conn.getManagerProperty "SystemState" ≠ none) ∧
      gatherPoints src conn allUnits now =
        nonSystemPoints src conn allUnits now ++
          (match conn.getManagerProperty "SystemState" with
           | none => []
           | some s =>
               [metricPoint src "system_running"
                 (if s == "\"running\"" then 1 else 0) now []])) := by
  refine ⟨fun e => rfl, ?_, ?_⟩
  · intro e he
    simp only [ScrapeMetrics, getAllUnits, he]
  · intro allUnits hus
    have hscrape : ScrapeMetrics src (.ok conn) now =
        (some { Timestamp := now
                MetricPoints :=
                  ((gatherPoints src conn allUnits now).foldl
                    (filterAppend src) (0, [])).2 },
         match collectSystemState src conn now with
         | .ok _ => none
         | .error e => some e) := by
      simp only [ScrapeMetrics, getAllUnits, hus]
    have hg : gatherPoints src conn allUnits now =
        nonSystemPoints src conn allUnits now ++
          (match collectSystemState src conn now with
           | .ok q => [q]
           | .error _ => []) := rfl
    refine ⟨by rw [hscrape], ?_, ?_⟩
    · rw [hscrape]
      cases hm : conn.getManagerProperty "SystemState" with
      | none =>
          have hc : collectSystemState src conn now =
              .error "couldn't get system state" := by
            unfold collectSystemState
            rw [hm]
          rw [hc]
          simp
      | some s =>
          have hc : collectSystemState src conn now =
              .ok (metricPoint src "system_running"
                (if s == "\"running\"" then 1 else 0) now []) := by
            unfold collectSystemState
            rw [hm]
          rw [hc]
          simp
    · rw [hg]
      cases hm : conn.getManagerProperty "SystemState" with
      | none =>
          have hc : collectSystemState src conn now =
              .error "couldn't get system state" := by
            unfold collectSystemState
            rw [hm]
          rw [hc]
      | some s =>
          have hc : collectSystemState src conn now =
              .ok (metricPoint src "system_running"
                (if s == "\"running\"" then 1 else 0) now []) := by
            unfold collectSystemState
            rw [hm]
          rw [hc]

/-- Closed instance of the amended C1 theorem: a failed connection open
yields a nil batch with the connection error, and a successful empty
snapshot yields the filtered gathered batch. -/
theorem scrape_error_policy_amended_witness :
    ScrapeMetrics src0 (.error "boom") 0 =
      (none, some ("couldn't get dbus connection: " ++ "boom")) ∧
    (ScrapeMetrics src0 (.ok conn0) 0).1 =
      some { Timestamp := 0
             MetricPoints :=
               ((gatherPoints src0 conn0 [] 0).foldl
                 (filterAppend src0) (0, [])).2 } :=
  ⟨(scrape_error_policy_amended src0 conn0 0).1 "boom",
   ((scrape_error_policy_amended src0 conn0 0).2.2 [] rfl).1⟩

/-! ### C10: construction-time boolean toggles -/

/-- C10: when a `taskMetrics`, `startTimeMetrics` or `restartMetrics` query
parameter is present but does not parse as a boolean, the corresponding
toggle becomes `false` — the parser's zero value, not the documented default
(which is `true` for the first two) — while an absent parameter keeps the
documented defaults true/true/false. -/
theorem newProvider_unparseable_toggles (vals : String → List String)
    (nodeName : String) (hostname : Except String String)
    (uf : Option (String → Bool))
    (mf : Option (String → List (String × String) → Bool))
    (s : String) (rest : List String) :
    (vals "taskMetrics" = s :: rest → parseBool s = none →
      (NewProvider vals nodeName hostname uf mf).collectTaskMetrics =
        false) ∧
    (vals "startTimeMetrics" = s :: rest → parseBool s = none →
      (NewProvider vals nodeName hostname uf mf).collectStartTimeMetrics =
        false) ∧
    (vals "restartMetrics" = s :: rest → parseBool s = none →
      (NewProvider vals nodeName hostname uf mf).collectRestartMetrics =
        false) ∧
    (vals "taskMetrics" = [] →
      (NewProvider vals nodeName hostname uf mf).collectTaskMetrics =
        true) ∧
    (vals "startTimeMetrics" = [] →
      (NewProvider vals nodeName hostname uf mf).collectStartTimeMetrics =
        true) ∧
    (vals "restartMetrics" = [] →
      (NewProvider vals nodeName hostname uf mf).collectRestartMetrics =
        false) := by
  refine ⟨?_, ?_, ?_, ?_, ?_, ?_⟩
  · intro hv hp
    show boolOption true (vals "taskMetrics") = false
    rw [hv]
    show (parseBool s).getD false = false
    simp [hp]
  · intro hv hp
    show boolOption true (vals "startTimeMetrics") = false
    rw [hv]
    show (parseBool s).getD false = false
    simp [hp]
  · intro hv hp
    show boolOption false (vals "restartMetrics") = false
    rw [hv]
    show (parseBool s).getD false = false
    simp [hp]
  · intro hv
    show boolOption true (vals "taskMetrics") = true
    rw [hv]
    rfl
  · intro hv
    show boolOption true (vals "startTimeMetrics") = true
    rw [hv]
    rfl
  · intro hv
    show boolOption false (vals "restartMetrics") = false
    rw [hv]
    rfl

/-- Closed instance of the C10 theorem: with all three parameters set to the
unparseable value `notabool`, the task and start-time collectors (default
enabled) are silently disabled. -/
theorem newProvider_unparseable_toggles_witness :
    (NewProvider vals0 "node" (.ok "host") none none).collectTaskMetrics =
      false ∧
    (NewProvider vals0 "node" (.ok "host") none
      none).collectStartTimeMetrics = false ∧
    (NewProvider vals0 "node" (.ok "host") none none).collectRestartMetrics =
      false :=
  ⟨(newProvider_unparseable_toggles vals0 "node" (.ok "host") none none
      "notabool" []).1 (by decide) (by decide),
   (newProvider_unparseable_toggles vals0 "node" (.ok "host") none none
      "notabool" []).2.1 (by decide) (by decide),
   (newProvider_unparseable_toggles vals0 "node" (.ok "host") none none
      "notabool" []).2.2.1 (by decide) (by decide)⟩

end systemd
